import Mathlib

/-!
Verification of the Murph document-to-speech application: shallow embedding of
the two serverless proxy handlers (api/tts/convert.js, api/tts/voices.js) and
of the client playback / voice-command logic (src/App.tsx), with theorems about
the contract they implement.
-/

namespace Murph

/-!
## Base64 encoding and decoding

The node variant of the synthesis proxy builds a byte string and calls
Buffer.toString with the base64 codec (convert.js lines 67-74); the edge
variant calls btoa over the byte string (convert.js lines 166-168).  Both
compute the standard padded base64 rendering of the upstream byte sequence.
The client decodes with atob and then reads each code unit back as a byte
(App.tsx lines 219-224); b64decode embeds that composite (base64 text in,
byte values out).  Bytes are modelled as natural numbers below 256.
-/

def base64Alphabet : List Char :=
  "ABCDEFGHIJKLMNOPQRSTUVWXYZabcdefghijklmnopqrstuvwxyz0123456789+/".toList

/-- The character emitted for a six-bit group. -/
def b64char (i : Nat) : Char := base64Alphabet.getD i '='

/-- The six-bit value recovered from an alphabet character. -/
def b64index (c : Char) : Nat := base64Alphabet.indexOf c

/-- Standard padded base64 over a byte list: three bytes become four
characters, a final one- or two-byte group is padded with `=`. -/
def b64encode : List Nat → List Char
  | [] => []
  | [b1] => [b64char (b1 / 4), b64char (b1 % 4 * 16), '=', '=']
  | [b1, b2] =>
      [b64char (b1 / 4), b64char (b1 % 4 * 16 + b2 / 16), b64char (b2 % 16 * 4), '=']
  | b1 :: b2 :: b3 :: rest =>
      b64char (b1 / 4) :: b64char (b1 % 4 * 16 + b2 / 16) ::
      b64char (b2 % 16 * 4 + b3 / 64) :: b64char (b3 % 64) :: b64encode rest

/-- The client-side decoding of a padded base64 text into byte values:
atob followed by charCodeAt on every position (App.tsx lines 219-224). -/
def b64decode : List Char → List Nat
  | c1 :: c2 :: c3 :: c4 :: rest =>
      if c3 = '=' then
        [b64index c1 * 4 + b64index c2 / 16]
      else if c4 = '=' then
        [b64index c1 * 4 + b64index c2 / 16, b64index c2 % 16 * 16 + b64index c3 / 4]
      else
        (b64index c1 * 4 + b64index c2 / 16) ::
        (b64index c2 % 16 * 16 + b64index c3 / 4) ::
        (b64index c3 % 4 * 64 + b64index c4) :: b64decode rest
  | _ => []

theorem b64index_b64char : ∀ i, i < 64 → b64index (b64char i) = i := by decide

theorem b64char_ne_pad : ∀ i, i < 64 → b64char i ≠ '=' := by decide

theorem b64_roundtrip (bs : List Nat) (h : ∀ b ∈ bs, b < 256) :
    b64decode (b64encode bs) = bs := by
  induction bs using b64encode.induct with
  | case1 => rfl
  | case2 b1 =>
      have hb1 : b1 < 256 := h b1 (by simp)
      simp only [b64encode, b64decode, if_pos rfl, if_true]
      rw [b64index_b64char (b1 / 4) (by omega), b64index_b64char (b1 % 4 * 16) (by omega)]
      simp only [List.cons.injEq, and_true]
      omega
  | case3 b1 b2 =>
      have hb1 : b1 < 256 := h b1 (by simp)
      have hb2 : b2 < 256 := h b2 (by simp)
      simp only [b64encode, b64decode,
        if_neg (b64char_ne_pad (b2 % 16 * 4) (by omega)), if_pos rfl, if_true]
      rw [b64index_b64char (b1 / 4) (by omega),
        b64index_b64char (b1 % 4 * 16 + b2 / 16) (by omega),
        b64index_b64char (b2 % 16 * 4) (by omega)]
      simp only [List.cons.injEq, and_true]
      omega
  | case4 b1 b2 b3 rest ih =>
      have hb1 : b1 < 256 := h b1 (by simp)
      have hb2 : b2 < 256 := h b2 (by simp)
      have hb3 : b3 < 256 := h b3 (by simp)
      have hrest : ∀ b ∈ rest, b < 256 := fun b hb => h b (by simp [hb])
      simp only [b64encode, b64decode,
        if_neg (b64char_ne_pad (b2 % 16 * 4 + b3 / 64) (by omega)),
        if_neg (b64char_ne_pad (b3 % 64) (by omega))]
      rw [b64index_b64char (b1 / 4) (by omega),
        b64index_b64char (b1 % 4 * 16 + b2 / 16) (by omega),
        b64index_b64char (b2 % 16 * 4 + b3 / 64) (by omega),
        b64index_b64char (b3 % 64) (by omega), ih hrest]
      simp only [List.cons.injEq, and_true]
      omega

/-!
## Synthesis proxy (api/tts/convert.js)

The file contains two variants of the same handler: a buffered node-style
handler (lines 6-84) and a streaming edge-style handler (lines 94-190).
Both are embedded as pure functions of the request method, the outcome of
obtaining the request body, the configured upstream credential, and the
behaviour of the upstream synthesis call.  The output records the response
status and body, whether the upstream fetch expression was reached, and the
text field of the payload forwarded upstream (when a fetch was issued).
-/

/-- JavaScript truthiness of an optional string: undefined and the empty
string are falsy (the checks on `text`, `voiceId` and the API key). -/
def jsFalsy : Option String → Bool
  | none => true
  | some s => s.isEmpty

/-- Outcome of obtaining the request body: a parsed object with optional
`text` and `voiceId` fields, or a thrown exception carrying a message
(destructuring an absent body in the node variant, a JSON parse failure of
request.json in the edge variant). -/
inductive ReqBody where
  | parsed (text : Option String) (voiceId : Option String)
  | raisesWith (msg : String)

/-- Behaviour of the upstream synthesis call: a success with binary audio
bytes, a non-success HTTP status with an error body, or a thrown network
error carrying a message. -/
inductive UpstreamTTS where
  | audioOk (bytes : List Nat)
  | httpErr (status : Nat) (errBody : String)
  | netThrow (msg : String)

/-- The JSON body of a proxy response. -/
inductive RespBody where
  | empty
  | jsonErr (msg : String)
  | jsonAudio (audio : List Char) (contentType : String)
  deriving DecidableEq

/-- Observable outcome of one synthesis-proxy invocation. -/
structure HandlerOut where
  status : Nat
  body : RespBody
  fetchReached : Bool
  forwardedText : Option String
  deriving DecidableEq

/-- Maximum character count forwarded upstream (convert.js lines 38, 131). -/
def maxChars : Nat := 5000

/-- The text actually forwarded: `text.substring(0, maxChars)` when the
input is longer than maxChars, the input itself otherwise
(convert.js lines 39, 132). -/
def textToConvert (text : String) : String :=
  if text.length > maxChars then text.take maxChars else text

/-- The buffered node-style handler (convert.js lines 6-84).  Order of
checks: OPTIONS preflight, non-POST, body destructuring, empty text,
missing API key, then the upstream call. -/
def convertNode (method : String) (body : ReqBody) (apiKey : Option String)
    (up : UpstreamTTS) : HandlerOut :=
  if method = "OPTIONS" then ⟨200, .empty, false, none⟩
  else if method ≠ "POST" then ⟨405, .jsonErr "Method not allowed", false, none⟩
  else match body with
    | .raisesWith msg => ⟨500, .jsonErr msg, false, none⟩
    | .parsed text _voiceId =>
      if jsFalsy text then ⟨400, .jsonErr "Text is required", false, none⟩
      else if jsFalsy apiKey then ⟨500, .jsonErr "API key not configured", false, none⟩
      else
        let t := textToConvert (text.getD "")
        match up with
        | .netThrow msg => ⟨500, .jsonErr msg, true, some t⟩
        | .httpErr status _ =>
            ⟨status, .jsonErr ("ElevenLabs error: " ++ toString status), true, some t⟩
        | .audioOk bytes => ⟨200, .jsonAudio (b64encode bytes) "audio/mpeg", true, some t⟩

/-- The streaming edge-style handler (convert.js lines 94-190).  Same
checks as the node variant except that it never tests whether the API key
is configured: it forwards to upstream with whatever key value it has. -/
def convertEdge (method : String) (body : ReqBody) (_apiKey : Option String)
    (up : UpstreamTTS) : HandlerOut :=
  if method = "OPTIONS" then ⟨200, .empty, false, none⟩
  else if method ≠ "POST" then ⟨405, .jsonErr "Method not allowed", false, none⟩
  else match body with
    | .raisesWith msg => ⟨500, .jsonErr msg, false, none⟩
    | .parsed text _voiceId =>
      if jsFalsy text then ⟨400, .jsonErr "Text is required", false, none⟩
      else
        let t := textToConvert (text.getD "")
        match up with
        | .netThrow msg => ⟨500, .jsonErr msg, true, some t⟩
        | .httpErr status _ =>
            ⟨status, .jsonErr ("ElevenLabs error: " ++ toString status), true, some t⟩
        | .audioOk bytes => ⟨200, .jsonAudio (b64encode bytes) "audio/mpeg", true, some t⟩

/-!
## Voice catalog proxy (api/tts/voices.js)
-/

/-- A voice record as returned to the client. -/
structure VoiceRec where
  id : String
  name : String
  category : String
  deriving DecidableEq

/-- The eight-voice fallback list (voices.js lines 26-35 and 49-58). -/
def fallbackVoices8 : List VoiceRec :=
  [⟨"21m00Tcm4TlvDq8ikWAM", "Rachel", "premade"⟩,
   ⟨"AZnzlk1XvdvUeBnXmlld", "Domi", "premade"⟩,
   ⟨"EXAVITQu4vr4xnSDxMaL", "Bella", "premade"⟩,
   ⟨"MF3mGyEYCl7XYWbV9V6O", "Elli", "premade"⟩,
   ⟨"TxGEqnHWrfWFTfGW9XjX", "Josh", "premade"⟩,
   ⟨"VR6AewLTigWG4xSOukaG", "Arnold", "premade"⟩,
   ⟨"pNInz6obpgDQGcFmaJgB", "Adam", "premade"⟩,
   ⟨"yoZ06aMxZJJ28mfd3POQ", "Sam", "premade"⟩]

/-- The three-voice list returned by the catch branch (voices.js
lines 72-76): only Rachel, Domi and Bella. -/
def fallbackVoices3 : List VoiceRec :=
  [⟨"21m00Tcm4TlvDq8ikWAM", "Rachel", "premade"⟩,
   ⟨"AZnzlk1XvdvUeBnXmlld", "Domi", "premade"⟩,
   ⟨"EXAVITQu4vr4xnSDxMaL", "Bella", "premade"⟩]

/-- Behaviour of the upstream voice-listing call: a parsed voices array of
(voice_id, name, optional category) triples, a non-success status, or a
thrown network error. -/
inductive UpstreamVoices where
  | listOk (voices : List (String × String × Option String))
  | httpErr (status : Nat)
  | netThrow (msg : String)

/-- The JSON body of a voice-catalog response. -/
inductive VoicesBody where
  | empty
  | jsonErr (msg : String)
  | voiceList (voices : List VoiceRec)
  deriving DecidableEq

/-- Observable outcome of one voice-catalog invocation. -/
structure VoicesOut where
  status : Nat
  body : VoicesBody
  deriving DecidableEq

/-- JavaScript `a || dflt` over an optional string field (the
`v.category || 'custom'` normalization, voices.js line 65). -/
def jsOrStr (o : Option String) (dflt : String) : String :=
  match o with
  | some s => if s.isEmpty then dflt else s
  | none => dflt

/-- The voice-catalog handler (voices.js lines 6-78). -/
def voicesHandler (method : String) (apiKey : Option String)
    (up : UpstreamVoices) : VoicesOut :=
  if method = "OPTIONS" then ⟨200, .empty⟩
  else if method ≠ "GET" then ⟨405, .jsonErr "Method not allowed"⟩
  else if jsFalsy apiKey then ⟨200, .voiceList fallbackVoices8⟩
  else match up with
    | .netThrow _ => ⟨200, .voiceList fallbackVoices3⟩
    | .httpErr _ => ⟨200, .voiceList fallbackVoices8⟩
    | .listOk vs =>
        ⟨200, .voiceList (vs.map (fun v => ⟨v.1, v.2.1, jsOrStr v.2.2 "custom"⟩))⟩

/-!
## Voice-command recognizer (App.tsx lines 122-143)

Each finalized utterance is lower-cased and trimmed, then matched through an
else-if chain of keyword tests using String.includes; the first matching
branch runs and issues exactly one command, and an utterance matching no
branch does nothing.
-/

/-- Whether `needle` is an initial segment of `hay` (character lists). -/
def leadsWith : List Char → List Char → Bool
  | [], _ => true
  | _ :: _, [] => false
  | a :: as, b :: bs => a = b && leadsWith as bs

/-- JavaScript String.includes: some suffix of `hay` starts with `needle`. -/
def hasSubstr (needle : List Char) : List Char → Bool
  | [] => leadsWith needle []
  | c :: rest => leadsWith needle (c :: rest) || hasSubstr needle rest

/-- Lower-case every character and strip whitespace from both ends
(`transcript.toLowerCase().trim()`, App.tsx line 124). -/
def lowerTrim (t : List Char) : List Char :=
  ((((t.map Char.toLower).dropWhile Char.isWhitespace).reverse.dropWhile
    Char.isWhitespace)).reverse

/-- Whether the command string contains any of the given keywords
(the disjunctions of String.includes tests). -/
def containsKw (command : List Char) (kws : List String) : Bool :=
  kws.any (fun k => hasSubstr k.toList command)

/-- The playback commands a recognized utterance can issue. -/
inductive VoiceCmd where
  | play | pause | faster | slower
  deriving DecidableEq

/-- The else-if chain of the onresult handler (App.tsx lines 126-142):
the lower-cased, trimmed utterance is tested against the keyword rules in
order and the first match decides the single command; none matches none. -/
def interpretCommand (t : List Char) : Option VoiceCmd :=
  let command := lowerTrim t
  if containsKw command ["play", "start"] then some .play
  else if containsKw command ["pause", "stop"] then some .pause
  else if containsKw command ["faster", "speed up"] then some .faster
  else if containsKw command ["slower", "slow down"] then some .slower
  else none

/-- Effect of a command on the speed multiplier: faster adds 0.25 capped at
2, slower subtracts 0.25 floored at 0.5 (App.tsx lines 133, 138); play and
pause do not change the speed. -/
def applySpeedCmd (c : VoiceCmd) (speed : ℚ) : ℚ :=
  match c with
  | .faster => min (speed + 1/4) 2
  | .slower => max (speed - 1/4) (1/2)
  | _ => speed

/-!
## Speed operations (voice commands and the direct range control)

The direct control is the range input at App.tsx lines 463-475, whose value
the browser keeps between the declared min 0.5 and max 2; its onChange
stores the parsed value as the new speed.
-/

/-- A speed-changing operation: a recognized voice command, or a direct
value from the range input. -/
inductive SpeedOp where
  | cmd (c : VoiceCmd)
  | direct (v : ℚ)

/-- One speed-changing step (App.tsx lines 133, 138 and 470-471). -/
def speedStep (op : SpeedOp) (s : ℚ) : ℚ :=
  match op with
  | .cmd c => applySpeedCmd c s
  | .direct v => v

/-- A direct value is valid when it lies inside the bounds the range input
declares (`min="0.5" max="2"`, App.tsx lines 465-466); voice commands are
always valid. -/
def validOp : SpeedOp → Prop
  | .cmd _ => True
  | .direct v => 1/2 ≤ v ∧ v ≤ 2

/-- Run a sequence of speed operations from an initial speed. -/
def runSpeedOps (ops : List SpeedOp) (s : ℚ) : ℚ :=
  ops.foldl (fun acc op => speedStep op acc) s

/-!
## Playback controller state (App.tsx)
-/

/-- The appState enumeration (App.tsx line 34). -/
inductive AppPhase where
  | idle | uploading | processing | ready | playing | paused | error
  deriving DecidableEq

/-- The client-side state the playback controller owns: the React state
fields together with the observable state of the audio element. -/
structure ClientState where
  appState : AppPhase
  document : Option (String × String × String)
  audioUrl : Option String
  progress : ℚ
  statusMessage : String
  selectedVoice : String
  playbackSpeed : ℚ
  showVoiceDropdown : Bool
  audioPresent : Bool
  audioPaused : Bool
  audioTime : ℚ
  deriving DecidableEq

/-- handleStop (App.tsx lines 253-261): when the audio element exists it is
paused and rewound, and the state becomes ready with progress 0 and status
message Stopped. -/
def handleStop (s : ClientState) : ClientState :=
  if s.audioPresent then
    { s with audioPaused := true, audioTime := 0,
             appState := .ready, progress := 0, statusMessage := "Stopped" }
  else s

/-- The disabled condition of the stop button (App.tsx line 505): disabled
exactly in idle and processing. -/
def stopDisabled (a : AppPhase) : Bool :=
  a = AppPhase.idle || a = AppPhase.processing

/-- handleVoiceChange (App.tsx lines 298-305): store the new voice id,
close the dropdown, and clear the cached audio url when one exists.  No
other field is touched. -/
def handleVoiceChange (voiceId : String) (s : ClientState) : ClientState :=
  let s1 := { s with selectedVoice := voiceId, showVoiceDropdown := false }
  if s1.audioUrl.isSome then { s1 with audioUrl := none } else s1

/-- What a play request does first (handlePlay, App.tsx lines 191-243):
with no document it only shows a notice; with cached audio and an audio
element it replays the cache; otherwise it enters processing and issues a
synthesis call. -/
inductive PlayAction where
  | needDocNotice | replayCached | synthesize
  deriving DecidableEq

/-- The branch handlePlay takes on a given state. -/
def playAction (s : ClientState) : PlayAction :=
  if s.document.isNone then .needDocNotice
  else if s.audioUrl.isSome && s.audioPresent then .replayCached
  else .synthesize

/-!
## Theorems
-/

/-- A present, non-empty string is not JavaScript-falsy. -/
theorem jsFalsy_some_ne {s : String} (h : s ≠ "") : jsFalsy (some s) = false := by
  show s.isEmpty = false
  cases hs : s.isEmpty
  · rfl
  · exact absurd ((String.isEmpty_iff s).mp hs) h

/-- Claim C1: for every non-empty input text, both synthesis-proxy variants
forward a payload whose text field is textToConvert of the input, which is
the input verbatim when it has at most 5000 characters and exactly its
first 5000 characters otherwise. -/
theorem C1_forward_text (text k : String) (vid : Option String) (up : UpstreamTTS)
    (htext : text ≠ "") (hkey : k ≠ "") :
    (convertNode "POST" (.parsed (some text) vid) (some k) up).forwardedText
        = some (textToConvert text)
    ∧ (convertEdge "POST" (.parsed (some text) vid) (some k) up).forwardedText
        = some (textToConvert text)
    ∧ (text.length ≤ 5000 → textToConvert text = text)
    ∧ (5000 < text.length → textToConvert text = text.take 5000) := by
  have ht : jsFalsy (some text) = false := jsFalsy_some_ne htext
  have hk : jsFalsy (some k) = false := jsFalsy_some_ne hkey
  refine ⟨?_, ?_, ?_, ?_⟩
  · cases up <;> simp [convertNode, ht, hk]
  · cases up <;> simp [convertEdge, ht, hk]
  · intro hle
    simp [textToConvert, maxChars]
    omega
  · intro hgt
    simp [textToConvert, maxChars, hgt]

/-- Claim C1 witness. -/
theorem C1_forward_text_witness :
    (convertNode "POST" (.parsed (some "hi") none) (some "key")
        (.audioOk [])).forwardedText = some (textToConvert "hi")
    ∧ textToConvert "hi" = "hi" :=
  ⟨(C1_forward_text "hi" "key" none (.audioOk []) (by decide) (by decide)).1,
   (C1_forward_text "hi" "key" none (.audioOk []) (by decide) (by decide)).2.2.1
     (by decide)⟩

/-- Claim C2: on a successful upstream binary payload both variants answer
200 with the base64 rendering of the upstream bytes, and the client-side
decoding of that base64 text reproduces the upstream bytes exactly. -/
theorem C2_audio_roundtrip (bytes : List Nat) (text k : String) (vid : Option String)
    (hb : ∀ b ∈ bytes, b < 256) (htext : text ≠ "") (hkey : k ≠ "") :
    (convertNode "POST" (.parsed (some text) vid) (some k) (.audioOk bytes)).status = 200
    ∧ (convertNode "POST" (.parsed (some text) vid) (some k) (.audioOk bytes)).body
        = RespBody.jsonAudio (b64encode bytes) "audio/mpeg"
    ∧ (convertEdge "POST" (.parsed (some text) vid) (some k) (.audioOk bytes)).status = 200
    ∧ (convertEdge "POST" (.parsed (some text) vid) (some k) (.audioOk bytes)).body
        = RespBody.jsonAudio (b64encode bytes) "audio/mpeg"
    ∧ b64decode (b64encode bytes) = bytes := by
  have ht : jsFalsy (some text) = false := jsFalsy_some_ne htext
  have hk : jsFalsy (some k) = false := jsFalsy_some_ne hkey
  refine ⟨?_, ?_, ?_, ?_, b64_roundtrip bytes hb⟩ <;>
    simp [convertNode, convertEdge, ht, hk]

/-- Claim C2 witness. -/
theorem C2_audio_roundtrip_witness :
    b64decode (b64encode [0, 77, 255]) = [0, 77, 255] :=
  (C2_audio_roundtrip [0, 77, 255] "hi" "key" none (by decide) (by decide)
    (by decide)).2.2.2.2

/-- Claim C3, counterexample: when the upstream voice-listing call throws
(a network failure), the catch branch answers with a three-voice list, not
the eight-voice fallback the claim describes. -/
theorem C3_counterexample :
    (voicesHandler "GET" (some "key") (.netThrow "fetch failed")).body
        ≠ VoicesBody.voiceList fallbackVoices8
    ∧ voicesHandler "GET" (some "key") (.netThrow "fetch failed")
        = ⟨200, .voiceList fallbackVoices3⟩
    ∧ fallbackVoices3.length = 3 := by decide

/-- Claim C3, amended: a listing request with the credential absent, or one
whose upstream call answers a non-success status, gets status 200 with
exactly the eight-voice fallback list, every entry carrying a non-empty id,
a non-empty name and category premade; when the upstream call throws, the
response still has status 200 but carries the three-voice fallback list
(Rachel, Domi, Bella), whose entries satisfy the same field conditions. -/
theorem C3_fallback_lists :
    (∀ up, voicesHandler "GET" none up = ⟨200, .voiceList fallbackVoices8⟩)
    ∧ (∀ k status, voicesHandler "GET" k (.httpErr status)
        = ⟨200, .voiceList fallbackVoices8⟩)
    ∧ (∀ k m, jsFalsy k = false →
        voicesHandler "GET" k (.netThrow m) = ⟨200, .voiceList fallbackVoices3⟩)
    ∧ fallbackVoices8.length = 8
    ∧ (∀ v ∈ fallbackVoices8, v.id ≠ "" ∧ v.name ≠ "" ∧ v.category = "premade")
    ∧ fallbackVoices3.length = 3
    ∧ (∀ v ∈ fallbackVoices3, v.id ≠ "" ∧ v.name ≠ "" ∧ v.category = "premade") := by
  refine ⟨?_, ?_, ?_, by decide, by decide, by decide, by decide⟩
  · intro up
    cases up <;> simp [voicesHandler, jsFalsy]
  · intro k status
    cases k with
    | none => simp [voicesHandler, jsFalsy]
    | some s =>
        by_cases hs : s.isEmpty <;> simp [voicesHandler, jsFalsy, hs]
  · intro k m hk
    simp [voicesHandler, hk]

/-- Claim C3 witness. -/
theorem C3_fallback_lists_witness :
    voicesHandler "GET" none (.httpErr 500) = ⟨200, .voiceList fallbackVoices8⟩
    ∧ voicesHandler "GET" (some "key") (.netThrow "fetch failed")
        = ⟨200, .voiceList fallbackVoices3⟩
    ∧ ((fallbackVoices8.get ⟨0, by decide⟩).id ≠ ""
        ∧ (fallbackVoices8.get ⟨0, by decide⟩).name ≠ ""
        ∧ (fallbackVoices8.get ⟨0, by decide⟩).category = "premade") :=
  ⟨C3_fallback_lists.1 _,
   C3_fallback_lists.2.2.1 (some "key") "fetch failed" (by decide),
   C3_fallback_lists.2.2.2.2.1 _ (by decide)⟩

/-- Claim C4: a conversion request whose text field is missing or empty is
answered 400 with the validation error, the upstream fetch is never
reached and nothing is forwarded, in both variants. -/
theorem C4_empty_text (text : Option String) (vid : Option String)
    (k : Option String) (up : UpstreamTTS) (h : jsFalsy text = true) :
    convertNode "POST" (.parsed text vid) k up
        = ⟨400, .jsonErr "Text is required", false, none⟩
    ∧ convertEdge "POST" (.parsed text vid) k up
        = ⟨400, .jsonErr "Text is required", false, none⟩ := by
  constructor <;> simp [convertNode, convertEdge, h]

/-- Claim C4 witness. -/
theorem C4_empty_text_witness :
    convertNode "POST" (.parsed (some "") none) (some "key") (.audioOk [1])
        = ⟨400, .jsonErr "Text is required", false, none⟩
    ∧ convertEdge "POST" (.parsed (some "") none) (some "key") (.audioOk [1])
        = ⟨400, .jsonErr "Text is required", false, none⟩ :=
  C4_empty_text (some "") none (some "key") (.audioOk [1]) (by decide)

/-- Claim C5, counterexample: with the upstream credential absent the two
variants disagree on a valid conversion request: the node variant answers
500 without reaching upstream, the edge variant forwards the request and
relays the upstream status. -/
theorem C5_counterexample :
    (convertNode "POST" (.parsed (some "hello") none) none
        (.httpErr 401 "unauthorized")).status = 500
    ∧ (convertEdge "POST" (.parsed (some "hello") none) none
        (.httpErr 401 "unauthorized")).status = 401
    ∧ convertNode "POST" (.parsed (some "hello") none) none (.httpErr 401 "unauthorized")
        ≠ convertEdge "POST" (.parsed (some "hello") none) none
            (.httpErr 401 "unauthorized") := by decide

/-- Claim C5, amended: whenever the upstream credential is present and
non-empty, the two variants produce the same response status, body,
fetch behaviour and forwarded payload on every request and every fixed
upstream behaviour; they differ exactly on the missing-credential path,
which only the node variant guards. -/
theorem C5_variants_agree (method : String) (body : ReqBody) (k : Option String)
    (up : UpstreamTTS) (hk : jsFalsy k = false) :
    convertNode method body k up = convertEdge method body k up := by
  by_cases h1 : method = "OPTIONS"
  · simp [convertNode, convertEdge, h1]
  · by_cases h2 : method = "POST"
    · cases body with
      | raisesWith msg => simp [convertNode, convertEdge, h1, h2]
      | parsed text vid =>
          by_cases h3 : jsFalsy text
          · simp [convertNode, convertEdge, h1, h2, h3]
          · cases up <;> simp [convertNode, convertEdge, h1, h2, h3, hk]
    · simp [convertNode, convertEdge, h1, h2]

/-- Claim C5 witness. -/
theorem C5_variants_agree_witness :
    convertNode "POST" (.parsed (some "hello") none) (some "key") (.audioOk [7, 8])
        = convertEdge "POST" (.parsed (some "hello") none) (some "key")
            (.audioOk [7, 8]) :=
  C5_variants_agree "POST" (.parsed (some "hello") none) (some "key")
    (.audioOk [7, 8]) (by decide)

/-- Claim C6: the recognizer matches a lower-cased finalized utterance
against the keyword rules in source order (play/start, pause/stop,
faster/speed up, slower/slow down); the first matching rule issues its one
command, an utterance matching no rule issues none; the utterance
please play now issues play, can you go slower issues slower, and the
slower command takes 0.25 off the speed (exactly, whenever the result
stays at or above the 0.5 floor). -/
theorem C6_command_matching :
    interpretCommand "please play now".toList = some VoiceCmd.play
    ∧ interpretCommand "can you go slower".toList = some VoiceCmd.slower
    ∧ applySpeedCmd VoiceCmd.slower 1 = 3/4
    ∧ (∀ s : ℚ, 3/4 ≤ s → applySpeedCmd VoiceCmd.slower s = s - 1/4)
    ∧ (∀ t, containsKw (lowerTrim t) ["play", "start"] = true →
        interpretCommand t = some VoiceCmd.play)
    ∧ (∀ t, containsKw (lowerTrim t) ["play", "start"] = false →
        containsKw (lowerTrim t) ["pause", "stop"] = true →
        interpretCommand t = some VoiceCmd.pause)
    ∧ (∀ t, containsKw (lowerTrim t) ["play", "start"] = false →
        containsKw (lowerTrim t) ["pause", "stop"] = false →
        containsKw (lowerTrim t) ["faster", "speed up"] = true →
        interpretCommand t = some VoiceCmd.faster)
    ∧ (∀ t, containsKw (lowerTrim t) ["play", "start"] = false →
        containsKw (lowerTrim t) ["pause", "stop"] = false →
        containsKw (lowerTrim t) ["faster", "speed up"] = false →
        containsKw (lowerTrim t) ["slower", "slow down"] = true →
        interpretCommand t = some VoiceCmd.slower)
    ∧ (∀ t, containsKw (lowerTrim t) ["play", "start"] = false →
        containsKw (lowerTrim t) ["pause", "stop"] = false →
        containsKw (lowerTrim t) ["faster", "speed up"] = false →
        containsKw (lowerTrim t) ["slower", "slow down"] = false →
        interpretCommand t = none) := by
  refine ⟨by decide, by decide, ?_, ?_, ?_, ?_, ?_, ?_, ?_⟩
  · show max (1 - 1/4 : ℚ) (1/2) = 3/4
    norm_num
  · intro s hs
    show max (s - 1/4) (1/2) = s - 1/4
    exact max_eq_left (by linarith)
  · intro t h1
    simp [interpretCommand, h1]
  · intro t h1 h2
    simp [interpretCommand, h1, h2]
  · intro t h1 h2 h3
    simp [interpretCommand, h1, h2, h3]
  · intro t h1 h2 h3 h4
    simp [interpretCommand, h1, h2, h3, h4]
  · intro t h1 h2 h3 h4
    simp [interpretCommand, h1, h2, h3, h4]

/-- Claim C6 witness. -/
theorem C6_command_matching_witness :
    interpretCommand "go start".toList = some VoiceCmd.play
    ∧ interpretCommand "mumble".toList = none
    ∧ applySpeedCmd VoiceCmd.slower (5/4) = 5/4 - 1/4 :=
  ⟨C6_command_matching.2.2.2.2.1 _ (by decide),
   C6_command_matching.2.2.2.2.2.2.2.2 _ (by decide) (by decide) (by decide)
     (by decide),
   C6_command_matching.2.2.2.1 (5/4) (by norm_num)⟩

/-- Claim C7: from any speed in the interval 0.5 to 2, any sequence of
speed operations (voice-command faster or slower steps, or direct values
that respect the bounds the range input declares) leaves the speed inside
the interval. -/
theorem C7_speed_bounds (ops : List SpeedOp) (s : ℚ)
    (hops : ∀ op ∈ ops, validOp op) (h0 : 1/2 ≤ s) (h1 : s ≤ 2) :
    1/2 ≤ runSpeedOps ops s ∧ runSpeedOps ops s ≤ 2 := by
  induction ops generalizing s with
  | nil => exact ⟨h0, h1⟩
  | cons op rest ih =>
      have hop : validOp op := hops op (by simp)
      have hrest : ∀ o ∈ rest, validOp o := fun o ho => hops o (by simp [ho])
      have hstep : 1/2 ≤ speedStep op s ∧ speedStep op s ≤ 2 := by
        cases op with
        | direct v => exact hop
        | cmd c =>
            cases c with
            | play => exact ⟨h0, h1⟩
            | pause => exact ⟨h0, h1⟩
            | faster => exact ⟨le_min (by linarith) (by norm_num), min_le_right _ _⟩
            | slower => exact ⟨le_max_right _ _, max_le (by linarith) (by norm_num)⟩
      exact ih (speedStep op s) hrest hstep.1 hstep.2

/-- Claim C7 witness. -/
theorem C7_speed_bounds_witness :
    1/2 ≤ runSpeedOps [SpeedOp.cmd VoiceCmd.faster, SpeedOp.direct 1,
        SpeedOp.cmd VoiceCmd.slower] 1
    ∧ runSpeedOps [SpeedOp.cmd VoiceCmd.faster, SpeedOp.direct 1,
        SpeedOp.cmd VoiceCmd.slower] 1 ≤ 2 :=
  C7_speed_bounds _ 1
    (by
      intro op hop
      rcases List.mem_cons.mp hop with rfl | hop
      · trivial
      rcases List.mem_cons.mp hop with rfl | hop
      · exact ⟨by norm_num, by norm_num⟩
      rcases List.mem_cons.mp hop with rfl | hop
      · trivial
      · exact absurd hop (List.not_mem_nil op))
    (by norm_num) (by norm_num)

/-- A reachable ready-state example: a document is loaded, no audio is
cached, and the status line still shows the upload message. -/
def readyEx : ClientState :=
  { appState := .ready, document := some ("doc.txt", "hello world", "text/plain"),
    audioUrl := none, progress := 0,
    statusMessage := "Document ready. Click Play to listen.",
    selectedVoice := "21m00Tcm4TlvDq8ikWAM", playbackSpeed := 1,
    showVoiceDropdown := false, audioPresent := true,
    audioPaused := true, audioTime := 0 }

/-- An error-state example: a synthesis failure was reported. -/
def errorEx : ClientState :=
  { appState := .error, document := some ("doc.txt", "hello world", "text/plain"),
    audioUrl := none, progress := 0,
    statusMessage := "Failed to generate audio",
    selectedVoice := "21m00Tcm4TlvDq8ikWAM", playbackSpeed := 1,
    showVoiceDropdown := false, audioPresent := true,
    audioPaused := true, audioTime := 0 }

/-- Claim C8, counterexample: invoking stop in state ready is not a no-op
(the status message changes to Stopped), the stop button is enabled in
ready, and the error state can also transition to ready via stop, so
playing and paused are not the only states that reach ready that way. -/
theorem C8_counterexample :
    readyEx.appState = AppPhase.ready
    ∧ stopDisabled readyEx.appState = false
    ∧ (handleStop readyEx).statusMessage ≠ readyEx.statusMessage
    ∧ (handleStop readyEx).statusMessage = "Stopped"
    ∧ errorEx.appState = AppPhase.error
    ∧ stopDisabled errorEx.appState = false
    ∧ (handleStop errorEx).appState = AppPhase.ready := by decide

/-- Claim C8, amended: whenever the audio element exists, handleStop moves
the machine to ready with progress 0 and status message Stopped while
leaving document, cached audio, speed and voice untouched; the stop button
is disabled exactly in idle and processing, so besides playing and paused
the states uploading, ready and error can also reach ready via stop, and a
stop in ready re-enters ready while still resetting progress and status. -/
theorem C8_stop_transitions (s : ClientState) (h : s.audioPresent = true) :
    (handleStop s).appState = AppPhase.ready
    ∧ (handleStop s).progress = 0
    ∧ (handleStop s).statusMessage = "Stopped"
    ∧ (handleStop s).document = s.document
    ∧ (handleStop s).audioUrl = s.audioUrl
    ∧ (handleStop s).playbackSpeed = s.playbackSpeed
    ∧ (handleStop s).selectedVoice = s.selectedVoice
    ∧ (stopDisabled s.appState = true ↔
        s.appState = AppPhase.idle ∨ s.appState = AppPhase.processing) := by
  refine ⟨?_, ?_, ?_, ?_, ?_, ?_, ?_, ?_⟩ <;>
    first
      | (simp [handleStop, h])
      | (cases s.appState <;> simp [stopDisabled])

/-- Claim C8 witness. -/
theorem C8_stop_transitions_witness :
    (handleStop errorEx).appState = AppPhase.ready
    ∧ (handleStop errorEx).statusMessage = "Stopped"
    ∧ (handleStop errorEx).document = errorEx.document :=
  ⟨(C8_stop_transitions errorEx (by decide)).1,
   (C8_stop_transitions errorEx (by decide)).2.2.1,
   (C8_stop_transitions errorEx (by decide)).2.2.2.1⟩

/-- Claim C9: when cached audio exists, changing the selected voice clears
the cached audio url and leaves the playback state, progress, document,
status message, speed and the audio element untouched; with a document
loaded, the next play request then takes the synthesis branch. -/
theorem C9_voice_change_frame (s : ClientState) (v : String)
    (h : s.audioUrl.isSome = true) :
    (handleVoiceChange v s).audioUrl = none
    ∧ (handleVoiceChange v s).selectedVoice = v
    ∧ (handleVoiceChange v s).appState = s.appState
    ∧ (handleVoiceChange v s).progress = s.progress
    ∧ (handleVoiceChange v s).document = s.document
    ∧ (handleVoiceChange v s).statusMessage = s.statusMessage
    ∧ (handleVoiceChange v s).playbackSpeed = s.playbackSpeed
    ∧ (handleVoiceChange v s).audioPaused = s.audioPaused
    ∧ (handleVoiceChange v s).audioTime = s.audioTime
    ∧ (s.document.isSome = true →
        playAction (handleVoiceChange v s) = PlayAction.synthesize) := by
  refine ⟨?_, ?_, ?_, ?_, ?_, ?_, ?_, ?_, ?_, ?_⟩ <;>
    simp [handleVoiceChange, playAction, h, Option.isNone_iff_eq_none]
  intro hd
  rcases Option.isSome_iff_exists.mp hd with ⟨d, hdoc⟩
  simp [hdoc]

/-- Claim C9 witness. -/
theorem C9_voice_change_frame_witness :
    (handleVoiceChange "AZnzlk1XvdvUeBnXmlld"
        { readyEx with audioUrl := some "blob:1" }).audioUrl = none
    ∧ playAction (handleVoiceChange "AZnzlk1XvdvUeBnXmlld"
        { readyEx with audioUrl := some "blob:1" }) = PlayAction.synthesize :=
  ⟨(C9_voice_change_frame { readyEx with audioUrl := some "blob:1" }
      "AZnzlk1XvdvUeBnXmlld" (by decide)).1,
   (C9_voice_change_frame { readyEx with audioUrl := some "blob:1" }
      "AZnzlk1XvdvUeBnXmlld" (by decide)).2.2.2.2.2.2.2.2.2 (by decide)⟩

/-- Claim C10: when the handler body throws (a malformed request body, or a
network failure while contacting upstream), both variants answer 500 with
the raw exception message echoed verbatim in the error field. -/
theorem C10_error_echo (msg text : String) (k : Option String)
    (vid : Option String) (up : UpstreamTTS)
    (htext : text ≠ "") (hk : jsFalsy k = false) :
    convertNode "POST" (.raisesWith msg) k up = ⟨500, .jsonErr msg, false, none⟩
    ∧ convertEdge "POST" (.raisesWith msg) k up = ⟨500, .jsonErr msg, false, none⟩
    ∧ (convertNode "POST" (.parsed (some text) vid) k (.netThrow msg)).status = 500
    ∧ (convertNode "POST" (.parsed (some text) vid) k (.netThrow msg)).body
        = RespBody.jsonErr msg
    ∧ (convertEdge "POST" (.parsed (some text) vid) k (.netThrow msg)).status = 500
    ∧ (convertEdge "POST" (.parsed (some text) vid) k (.netThrow msg)).body
        = RespBody.jsonErr msg := by
  have ht : jsFalsy (some text) = false := jsFalsy_some_ne htext
  refine ⟨?_, ?_, ?_, ?_, ?_, ?_⟩ <;>
    simp [convertNode, convertEdge, ht, hk]

/-- Claim C10 witness. -/
theorem C10_error_echo_witness :
    convertNode "POST" (.raisesWith "Unexpected token in JSON") (some "key")
        (.audioOk []) = ⟨500, .jsonErr "Unexpected token in JSON", false, none⟩
    ∧ (convertEdge "POST" (.parsed (some "hi") none) (some "key")
        (.netThrow "fetch failed")).body = RespBody.jsonErr "fetch failed" :=
  ⟨(C10_error_echo "Unexpected token in JSON" "hi" (some "key") none
      (.audioOk []) (by decide) (by decide)).1,
   (C10_error_echo "fetch failed" "hi" (some "key") none
      (.audioOk []) (by decide) (by decide)).2.2.2.2.2⟩

end Murph
